import Mathlib

/-!
Verification development for the couple_compass chat backend
(`backend/app/services/chat_service.py`, `ai_service.py`, `vector_service.py`
and `backend/app/routers/chat.py`).

The Python code is shallowly embedded: SQLAlchemy rows become records, the
database session becomes an explicit `Db` value threaded through each
operation, `datetime.utcnow()` becomes an explicit `now : Nat` parameter
(seconds), awaited external calls (the LLM backend, the Pinecone index, a
WebSocket transport) become explicit parameters carrying the call's outcome
(`Except String _` for fallible calls), and a raised exception caught by a
router handler becomes an `Except (Nat × String) _` result carrying the HTTP
status code and detail string.  Rational numbers stand in for Python floats:
every float in the modelled code is a literal or a product/comparison of
literals, which ℚ represents exactly.
-/

namespace CoupleCompass

/-! ## Data model (backend/app/models/chat.py) -/

/-- Row of `chat_sessions` (`models/chat.py`, class `ChatSession`). -/
structure ChatSessionRec where
  id : Nat
  title : String
  userId : Nat
  partnerUserId : Option Nat
  sessionType : String
  status : String
  topic : Option String
  lastActivity : Nat
  deriving Repr, DecidableEq

/-- Row of `chat_messages` (`models/chat.py`, class `ChatMessage`).
`metadata` is the JSON `message_metadata` column, modelled as a string
association list. -/
structure ChatMessageRec where
  id : Nat
  sessionId : Nat
  userId : Option Nat
  role : String
  content : String
  messageType : String
  metadata : List (String × String)
  parentMessageId : Option Nat
  isEdited : Bool
  isDeleted : Bool
  tokensUsed : Option Nat
  createdAt : Nat
  deriving Repr, DecidableEq

/-- Row of `chat_invitations` (`models/chat.py`, class `ChatInvitation`). -/
structure ChatInvitationRec where
  id : Nat
  sessionId : Nat
  inviterId : Nat
  inviteeId : Nat
  status : String
  invitationMessage : Option String
  expiresAt : Option Nat
  respondedAt : Option Nat
  deriving Repr, DecidableEq

/-- Row of `users` (`models/user.py`), restricted to the fields the chat
router reads (`id`, `partner_id`, `name`). -/
structure UserRec where
  id : Nat
  partnerId : Option Nat
  name : String
  deriving Repr, DecidableEq

/-- The relational state the chat operations touch.  `nextId` models the
autoincrementing primary key handed out by the database on insert. -/
structure Db where
  sessions : List ChatSessionRec
  messages : List ChatMessageRec
  invitations : List ChatInvitationRec
  nextId : Nat
  deriving Repr, DecidableEq

/-! ## List-ordering infrastructure

`ORDER BY` clauses are modelled by an insertion sort parameterised by a
boolean comparator; ties are broken by input order, which is one of the
orders the SQL backend may return. -/

/-- Insert `x` into `l` in front of the first element `y` with `le x y`. -/
def insertSorted (le : α → α → Bool) (x : α) : List α → List α
  | [] => [x]
  | y :: ys => if le x y then x :: y :: ys else y :: insertSorted le x ys

/-- Insertion sort by the comparator `le`. -/
def sortBy (le : α → α → Bool) : List α → List α
  | [] => []
  | x :: xs => insertSorted le x (sortBy le xs)

/-! ## Provider adapter (backend/app/services/ai_service.py)

Each provider method wraps an awaited external call in `try/except`.  The
external call's outcome is passed in as `Except String _` (the `String` is
Python's `str(e)`); the embedded function is the `try/except` logic around
it. -/

/-- Result dict of a successful `generate_completion` call
(`ai_service.py`): `{"message", "tokens_used", "provider", "model"}`. -/
structure GenResult where
  message : String
  tokensUsed : Nat
  provider : String
  model : String
  deriving Repr, DecidableEq

/-- Result dict of a `moderate_content` call (`ai_service.py`):
`{"flagged", "categories", "category_scores", "provider"}`. -/
structure ModResult where
  flagged : Bool
  categories : List (String × Bool)
  categoryScores : List (String × ℚ)
  provider : String
  deriving Repr, DecidableEq

/-- `OpenAIProvider.moderate_content` (ai_service.py lines 73-87): on a
successful backend call it repackages the moderation result; on an exception
it logs and returns `{"flagged": False, "categories": {}, "category_scores":
{}, "provider": "openai"}`. -/
def OpenAIProvider.moderate_content (call : Except String ModResult) : ModResult :=
  match call with
  | .ok m => { flagged := m.flagged, categories := m.categories,
               categoryScores := m.categoryScores, provider := "openai" }
  | .error _ => { flagged := false, categories := [], categoryScores := [],
                  provider := "openai" }

/-- `OpenAIProvider.get_embeddings` (ai_service.py lines 89-99): returns the
backend embedding, or the empty list `[]` on an exception. -/
def OpenAIProvider.get_embeddings (call : Except String (List ℚ)) : List ℚ :=
  match call with
  | .ok v => v
  | .error _ => []

/-- The embedding dimensionality the vector store declares for the OpenAI
backend (`vector_service.py` line 15: `self.dimension = 1536`). -/
def openaiDeclaredDimension : Nat := 1536

/-- `GeminiProvider.moderate_content` (ai_service.py lines 162-175): a local
keyword check, no external call. -/
def GeminiProvider.moderate_content (content : String) : ModResult :=
  let flaggedWords := ["abuse", "violence", "hate", "harassment"]
  let contentLower := content.toLower
  let flagged := flaggedWords.any (fun w => (contentLower.splitOn w).length > 1)
  { flagged := flagged,
    categories := [("harassment", flagged)],
    categoryScores := [("harassment", if flagged then 8/10 else 1/10)],
    provider := "gemini" }

/-- `GeminiProvider.get_embeddings` (ai_service.py lines 177-190): returns
the backend embedding, or a zero vector of length 768 on an exception. -/
def GeminiProvider.get_embeddings (call : Except String (List ℚ)) : List ℚ :=
  match call with
  | .ok v => v
  | .error _ => List.replicate 768 (0 : ℚ)

/-- `AIService.moderate_content` (ai_service.py lines 347-353): delegates to
the provider; any exception is caught and a not-flagged default returned. -/
def AIService.moderate_content (providerName : String)
    (providerCall : Except String ModResult) : ModResult :=
  match providerCall with
  | .ok m => m
  | .error _ => { flagged := false, categories := [], categoryScores := [],
                  provider := providerName }

/-- `AIService.get_embeddings` (ai_service.py lines 388-394): delegates to
the provider; any exception is caught and `[]` returned. -/
def AIService.get_embeddings (providerCall : Except String (List ℚ)) : List ℚ :=
  match providerCall with
  | .ok v => v
  | .error _ => []

/-- The fallback reply substituted on generation failure
(`AIService.generate_mediation_response`, ai_service.py lines 296-304). -/
def fallbackApology : String :=
  "I apologize, but I'm having trouble processing your message right now. Please try again in a moment, or consider reaching out to a professional counselor if you need immediate support."

/-- The fixed suggestions substituted when the suggestion call fails
(`AIService._generate_suggested_actions`, ai_service.py lines 343-345). -/
def fallbackSuggestions : List String :=
  ["Continue the conversation", "Reflect on the advice given",
   "Consider discussing this with your partner"]

/-- `AIService._generate_suggested_actions` (ai_service.py lines 306-345):
a secondary generation call; its reply is split on newlines, trimmed,
filtered and capped at 3, and any exception yields `fallbackSuggestions`. -/
def AIService.generateSuggestedActions (call : Except String GenResult) :
    List String :=
  match call with
  | .ok r =>
    ((((r.message.splitOn "\n").map String.trim).filter
        (fun s => !(s == "") && !(s.startsWith "-"))).take 3)
  | .error _ => fallbackSuggestions

/-- The system instruction of `get_relationship_mediation_prompt`
(ai_service.py lines 220-241).  Only its identity matters to the pipeline;
the full counselling text is abridged to its first sentence here. -/
def mediationPrompt : String :=
  "You are a professional relationship counselor and mediator specializing in helping couples resolve conflicts and improve communication."

/-- The response object `AIResponse` (schemas/chat.py lines 102-107). -/
structure AIResponseRec where
  message : String
  tokensUsed : Nat
  confidenceScore : ℚ
  suggestedActions : List String
  metadata : List (String × String)
  deriving Repr, DecidableEq

/-! ## Context store (backend/app/services/vector_service.py)

The Pinecone index is an external collaborator.  It is modelled by the
stored chunks (`store_conversation_context` upserts) together with a
similarity function `sim` standing for the cosine similarity the index
computes for a query vector: `index.query` filters the chunks by the
metadata filter, orders them by that score descending and returns at most
`top_k` of them, each carrying its score and metadata. -/

/-- One vector upserted by `store_conversation_context`
(vector_service.py lines 63-81): id, values, and the metadata fields the
service writes (`session_id`, `content`, `content_type`, plus the extra
caller-supplied metadata). -/
structure StoredChunk where
  vecId : String
  values : List ℚ
  sessionId : Nat
  content : String
  contentType : String
  extraMetadata : List (String × String)
  deriving Repr, DecidableEq

/-- One match of an `index.query` response: id, similarity score, and the
stored metadata. -/
structure PineconeMatch where
  vecId : String
  score : ℚ
  sessionId : Nat
  content : String
  contentType : String
  extraMetadata : List (String × String)
  deriving Repr, DecidableEq

/-- Descending order on match scores. -/
def matchScoreDesc (a b : PineconeMatch) : Bool := decide (b.score ≤ a.score)

/-- `self.index.query(vector=…, top_k=…, filter={"session_id": sid},
include_metadata=True)`: the matches whose metadata passes the filter,
scored by `sim`, best first, at most `topK` of them. -/
def pineconeQuery (sim : List ℚ → List ℚ → ℚ) (index : List StoredChunk)
    (vector : List ℚ) (topK : Nat) (sessionId : Nat) : List PineconeMatch :=
  ((sortBy matchScoreDesc
      ((index.filter (fun c => c.sessionId == sessionId)).map
        (fun c => { vecId := c.vecId, score := sim vector c.values,
                    sessionId := c.sessionId, content := c.content,
                    contentType := c.contentType,
                    extraMetadata := c.extraMetadata }))).take topK)

/-- Python 3 `round` to an integer: round half to even. -/
def pyRound (q : ℚ) : ℤ :=
  let f := ⌊q⌋
  let frac := q - f
  if frac < 1/2 then f
  else if 1/2 < frac then f + 1
  else if f % 2 = 0 then f else f + 1

/-- One element of `search_relevant_context`'s result list
(vector_service.py lines 117-129). -/
structure SearchResult where
  resId : String
  content : String
  contentType : String
  relevanceScore : ℤ
  metadata : List (String × String)
  deriving Repr, DecidableEq

/-- The result dict built for one kept match (vector_service.py lines
120-129): content, kind, `round(match.score * 100)`, and the metadata minus
the keys already surfaced. -/
def formatMatch (m : PineconeMatch) : SearchResult :=
  { resId := m.vecId, content := m.content, contentType := m.contentType,
    relevanceScore := pyRound (m.score * 100), metadata := m.extraMetadata }

/-- Default of the `min_score` parameter (vector_service.py line 95:
`min_score: float = 0.7`). -/
def defaultMinScore : ℚ := 7/10

/-- `VectorService.search_relevant_context` (vector_service.py lines
90-135).  `indexAvailable` is `self.index` being non-`None`;
`queryEmbedding` is the awaited `self.ai_service.get_embeddings(query)`
(`[]` when embedding fails, see `AIService.get_embeddings`); `sim` and
`index` model the Pinecone collaborator as above. -/
def VectorService.search_relevant_context (indexAvailable : Bool)
    (sim : List ℚ → List ℚ → ℚ) (index : List StoredChunk)
    (queryEmbedding : List ℚ) (sessionId limit : Nat) (minScore : ℚ) :
    List SearchResult :=
  if indexAvailable = false then []
  else if queryEmbedding = [] then []
  else
    ((pineconeQuery sim index queryEmbedding limit sessionId).filter
        (fun m => decide (minScore ≤ m.score))).map formatMatch

/-- `AIService.generate_mediation_response` (ai_service.py lines 243-304).
`conversationHistory` is the `(role, content)` history passed by the chat
service; `genOutcome`/`suggestOutcome` are the outcomes of the primary and
the suggested-actions `generate_completion` calls.  On a primary-call
exception the safe apology reply is returned with zero token cost and an
error marker in metadata; the suggestion call is never reached there. -/
def AIService.generate_mediation_response (providerName : String)
    (message : String) (conversationHistory : List (String × String))
    (genOutcome suggestOutcome : Except String GenResult) : AIResponseRec :=
  let messages :=
    (("system", mediationPrompt) ::
      conversationHistory.drop (conversationHistory.length - 10)) ++
    [("user", message)]
  match genOutcome with
  | .ok r =>
    { message := r.message,
      tokensUsed := r.tokensUsed,
      confidenceScore := 85/100,
      suggestedActions := AIService.generateSuggestedActions suggestOutcome,
      metadata := [("provider", r.provider), ("model", r.model),
                   ("temperature", "0.7"),
                   ("context_length", toString messages.length)] }
  | .error e =>
    { message := fallbackApology,
      tokensUsed := 0,
      confidenceScore := 0,
      suggestedActions := ["Try rephrasing your message",
                           "Contact a professional counselor"],
      metadata := [("error", e), ("provider", providerName)] }

/-! ## Chat service (backend/app/services/chat_service.py) -/

/-- The two `ValueError`s `ChatService.send_message` raises before any
write (chat_service.py lines 68 and 74). -/
inductive ChatError where
  | sessionNotFound
  | policyViolation
  deriving Repr, DecidableEq

/-- The `str(e)` of each `ValueError`. -/
def ChatError.detail : ChatError → String
  | .sessionNotFound => "Chat session not found or access denied"
  | .policyViolation => "Message content violates community guidelines"

/-- Request body of a send-message call (`ChatMessageSend`,
schemas/chat.py). -/
structure ChatMessageSend where
  content : String
  messageType : String
  parentMessageId : Option Nat
  deriving Repr, DecidableEq

/-- The dict `ChatService.send_message` returns (chat_service.py lines
156-161). -/
structure SendOk where
  userMessage : ChatMessageRec
  aiMessage : ChatMessageRec
  suggestedActions : List String
  confidenceScore : ℚ
  deriving Repr, DecidableEq

/-- `ORDER BY created_at ASC` on messages. -/
def msgCreatedAsc (a b : ChatMessageRec) : Bool := decide (a.createdAt ≤ b.createdAt)

/-- `ORDER BY created_at DESC` on messages. -/
def msgCreatedDesc (a b : ChatMessageRec) : Bool := decide (b.createdAt ≤ a.createdAt)

/-- `ORDER BY last_activity DESC` on sessions. -/
def sessActivityDesc (a b : ChatSessionRec) : Bool :=
  decide (b.lastActivity ≤ a.lastActivity)

/-- `ChatService._get_conversation_history` (chat_service.py lines 282-309):
last `limit` non-deleted session messages, reversed to chronological order,
as `(role, content)` pairs. -/
def ChatService.getConversationHistory (db : Db) (sessionId limit : Nat) :
    List (String × String) :=
  ((((sortBy msgCreatedDesc
        (db.messages.filter
          (fun m => m.sessionId == sessionId && m.isDeleted == false))).take
      limit).reverse).map (fun m => (m.role, m.content)))

/-- `ChatService.get_chat_sessions` (chat_service.py lines 168-187): the
caller's sessions ordered by last activity descending, `LIMIT limit OFFSET
offset`. -/
def ChatService.get_chat_sessions (db : Db) (userId limit offset : Nat) :
    List ChatSessionRec :=
  (((sortBy sessActivityDesc
        (db.sessions.filter (fun s => s.userId == userId))).drop offset).take
    limit)

/-- `ChatService.get_chat_history` (chat_service.py lines 189-220): access
check, then non-deleted session messages in creation order, `LIMIT limit
OFFSET offset`. -/
def ChatService.get_chat_history (db : Db) (sessionId userId limit offset : Nat) :
    Except ChatError (List ChatMessageRec) :=
  match db.sessions.find? (fun s => s.id == sessionId && s.userId == userId) with
  | none => .error .sessionNotFound
  | some _ =>
    .ok (((sortBy msgCreatedAsc
            (db.messages.filter
              (fun m => m.sessionId == sessionId && m.isDeleted == false))).drop
          offset).take limit)

/-- `ChatService.send_message` (chat_service.py lines 52-166).  External
call outcomes are parameters: `moderationResult` is the awaited
`self.ai_service.moderate_content(...)` (total — the service catches its
errors, see `AIService.moderate_content`), `genOutcome`/`suggestOutcome`
the two `generate_completion` outcomes, `relevantContext` the awaited
`search_relevant_context` result (fed to `generate_mediation_response`
as `user_context`, which that function ignores).  A `ValueError` raised
before any write leaves the database unchanged (`db.rollback()` on a
session with no pending writes). -/
def ChatService.send_message (db : Db) (now : Nat) (sessionId userId : Nat)
    (providerName : String) (messageData : ChatMessageSend)
    (moderationResult : ModResult)
    (genOutcome suggestOutcome : Except String GenResult)
    (relevantContext : List SearchResult) :
    Except ChatError SendOk × Db :=
  match db.sessions.find? (fun s => s.id == sessionId && s.userId == userId) with
  | none => (.error .sessionNotFound, db)
  | some _ =>
    if moderationResult.flagged then (.error .policyViolation, db)
    else
      let _ := relevantContext
      let userMessage : ChatMessageRec :=
        { id := db.nextId, sessionId := sessionId, userId := some userId,
          role := "user", content := messageData.content,
          messageType := messageData.messageType, metadata := [],
          parentMessageId := messageData.parentMessageId,
          isEdited := false, isDeleted := false, tokensUsed := none,
          createdAt := now }
      let db1 : Db :=
        { db with messages := db.messages ++ [userMessage],
                  nextId := db.nextId + 1 }
      let conversationHistory := ChatService.getConversationHistory db1 sessionId 10
      let aiResponse := AIService.generate_mediation_response providerName
        messageData.content conversationHistory genOutcome suggestOutcome
      let aiMessage : ChatMessageRec :=
        { id := db1.nextId, sessionId := sessionId, userId := none,
          role := "ai", content := aiResponse.message,
          messageType := "text", metadata := aiResponse.metadata,
          parentMessageId := some userMessage.id,
          isEdited := false, isDeleted := false,
          tokensUsed := some aiResponse.tokensUsed, createdAt := now }
      let db2 : Db :=
        { db1 with
            messages := db1.messages ++ [aiMessage],
            sessions := db1.sessions.map
              (fun s => if s.id == sessionId then { s with lastActivity := now }
                        else s),
            nextId := db1.nextId + 1 }
      (.ok { userMessage := userMessage, aiMessage := aiMessage,
             suggestedActions := aiResponse.suggestedActions,
             confidenceScore := aiResponse.confidenceScore }, db2)

/-! ## Connection registry (backend/app/routers/chat.py, `ConnectionManager`)

A live WebSocket is a `Conn`; `sendOk` records whether `await
connection.send_text(...)` succeeds on it during the modelled call.  The
manager state `active_connections : Dict[int, List[WebSocket]]` is an
association list in insertion order. -/

/-- One live WebSocket connection. -/
structure Conn where
  connId : Nat
  sendOk : Bool
  deriving Repr, DecidableEq

/-- `ConnectionManager.active_connections`. -/
abbrev Registry := List (Nat × List Conn)

/-- CPython semantics of `for connection in lst: … lst.remove(connection)`
inside `send_personal_message` (chat.py lines 49-54): the `for` statement
walks the list by index; delivery is attempted on the element at the
current index; a failed send removes that element in place (connections
are distinct objects, so `remove` erases exactly it), and the element that
slides into its position is skipped when the iterator advances.  `settled`
holds the positions the iterator has passed; `rest` the positions still
ahead.  Returns the final list and the connections that received the
message, in order. -/
def pyForSend (settled : List Conn) : List Conn → List Conn × List Conn
  | [] => (settled, [])
  | c :: rest =>
    if c.sendOk then
      let out := pyForSend (settled ++ [c]) rest
      (out.1, c :: out.2)
    else
      match rest with
      | [] => (settled, [])
      | d :: rest' => pyForSend (settled ++ [d]) rest'

/-- `ConnectionManager.send_personal_message` (chat.py lines 47-54). -/
def ConnectionManager.send_personal_message (reg : Registry) (userId : Nat) :
    Registry × List Conn :=
  match reg.lookup userId with
  | none => (reg, [])
  | some conns =>
    let out := pyForSend [] conns
    (reg.map (fun e => if e.fst == userId then (e.fst, out.1) else e), out.2)

/-- `ConnectionManager.broadcast_to_session` (chat.py lines 56-66): walks
every user's connection list in insertion order (same removal semantics
per list), skipping the sender when `sender_user_id` is truthy (`if
sender_user_id and user_id == sender_user_id`, so sender id `0` is never
skipped). -/
def ConnectionManager.broadcast_to_session (senderUserId : Option Nat) :
    Registry → Registry × List Conn
  | [] => ([], [])
  | e :: rest =>
    let skip : Bool := match senderUserId with
      | some s => s != 0 && e.fst == s
      | none => false
    if skip then
      let out := ConnectionManager.broadcast_to_session senderUserId rest
      (e :: out.1, out.2)
    else
      let sent := pyForSend [] e.snd
      let out := ConnectionManager.broadcast_to_session senderUserId rest
      ((e.fst, sent.1) :: out.1, sent.2 ++ out.2)

/-! ## Router endpoints (backend/app/routers/chat.py)

An endpoint returns `Except (Nat × String) α`: a raised `HTTPException
(status_code, detail)` or the JSON payload.  `RouterOut` additionally
carries the database, the registry and the connections that received a
WebSocket event during the call. -/

/-- Outcome of a router endpoint that may touch the database and the
connection registry. -/
structure RouterOut (α : Type) where
  result : Except (Nat × String) α
  db : Db
  registry : Registry
  delivered : List Conn
  deriving Repr

/-- The generic handler of `send_message` for a non-`ValueError` exception
(chat.py line 207). -/
def genericSendFailure : Nat × String := (500, "Failed to send message")

/-- `send_message` endpoint (chat.py lines 166-207): delegates to
`ChatService.send_message`; a `ValueError` becomes a 400 with its message;
on success the AI reply is broadcast with the sender excluded. -/
def Router.send_message (db : Db) (reg : Registry) (now sessionId : Nat)
    (currentUser : UserRec) (providerName : String)
    (messageData : ChatMessageSend) (moderationResult : ModResult)
    (genOutcome suggestOutcome : Except String GenResult)
    (relevantContext : List SearchResult) : RouterOut SendOk :=
  match ChatService.send_message db now sessionId currentUser.id providerName
      messageData moderationResult genOutcome suggestOutcome relevantContext with
  | (.error e, db') => ⟨.error (400, e.detail), db', reg, []⟩
  | (.ok result, db') =>
    let bc := ConnectionManager.broadcast_to_session (some currentUser.id) reg
    ⟨.ok result, db', bc.1, bc.2⟩

/-- `get_chat_session` endpoint (chat.py lines 132-164): looks the session
up inside `get_chat_sessions`'s result, whose `limit` is left at its
default of 20. -/
def Router.get_chat_session (db : Db) (userId sessionId : Nat) :
    Except (Nat × String) (ChatSessionRec × List ChatMessageRec) :=
  let sessions := ChatService.get_chat_sessions db userId 20 0
  match sessions.find? (fun s => s.id == sessionId) with
  | none => .error (404, "Chat session not found")
  | some session =>
    match ChatService.get_chat_history db sessionId userId 50 0 with
    | .error _ => .error (500, "Failed to get chat session")
    | .ok messages => .ok (session, messages)

/-- The `(session, inviter, invitee, pending)` filter of the existing-
invitation query (chat.py lines 345-350). -/
def isPendingFor (sessionId inviterId inviteeId : Nat)
    (i : ChatInvitationRec) : Bool :=
  i.sessionId == sessionId && i.inviterId == inviterId &&
    i.inviteeId == inviteeId && i.status == "pending"

/-- At most one pending invitation per (session, inviter, invitee) triple. -/
def PendingUnique (db : Db) : Prop :=
  ∀ s a b, db.invitations.countP (isPendingFor s a b) ≤ 1

/-- `invite_partner_to_session` endpoint (chat.py lines 318-401). -/
def Router.invite_partner_to_session (db : Db) (reg : Registry) (now : Nat)
    (sessionId : Nat) (currentUser : UserRec)
    (invitationMessage : Option String) : RouterOut ChatInvitationRec :=
  match currentUser.partnerId with
  | none => ⟨.error (400, "You don't have a linked partner"), db, reg, []⟩
  | some partnerId =>
    match db.sessions.find?
        (fun s => s.id == sessionId && s.userId == currentUser.id) with
    | none => ⟨.error (404, "Chat session not found"), db, reg, []⟩
    | some session =>
      if session.partnerUserId == some partnerId then
        ⟨.error (400, "Partner is already in this session"), db, reg, []⟩
      else
        match db.invitations.find?
            (isPendingFor sessionId currentUser.id partnerId) with
        | some _ =>
          ⟨.error (400, "Partner invitation already pending"), db, reg, []⟩
        | none =>
          let invitation : ChatInvitationRec :=
            { id := db.nextId, sessionId := sessionId,
              inviterId := currentUser.id, inviteeId := partnerId,
              status := "pending", invitationMessage := invitationMessage,
              expiresAt := some (now + 24 * 3600), respondedAt := none }
          let db' := { db with invitations := db.invitations ++ [invitation],
                               nextId := db.nextId + 1 }
          let sp := ConnectionManager.send_personal_message reg partnerId
          ⟨.ok invitation, db', sp.1, sp.2⟩

/-- The lazy expiry test of `accept_chat_invitation` (chat.py line 452):
`if invitation.expires_at and datetime.utcnow() > invitation.expires_at`. -/
def invitationExpired (now : Nat) (inv : ChatInvitationRec) : Bool :=
  match inv.expiresAt with
  | some t => decide (t < now)
  | none => false

/-- `accept_chat_invitation` endpoint (chat.py lines 432-496).  On success
the inviter is notified personally and a `partner_joined` event is
broadcast with no sender exclusion. -/
def Router.accept_chat_invitation (db : Db) (reg : Registry) (now : Nat)
    (invitationId : Nat) (currentUser : UserRec) : RouterOut Nat :=
  match db.invitations.find?
      (fun i => i.id == invitationId && i.inviteeId == currentUser.id &&
        i.status == "pending") with
  | none => ⟨.error (404, "Invitation not found"), db, reg, []⟩
  | some invitation =>
    if invitationExpired now invitation then
      let invitations' := db.invitations.map
        (fun i => if i.id == invitation.id then { i with status := "expired" }
                  else i)
      let db' := { db with invitations := invitations' }
      ⟨.error (400, "Invitation has expired"), db', reg, []⟩
    else
      let sessions' := db.sessions.map
        (fun s => if s.id == invitation.sessionId then
            { s with partnerUserId := some currentUser.id,
                     sessionType := "couple_chat" }
          else s)
      let db1 := { db with sessions := sessions' }
      let invitations' := db1.invitations.map
        (fun i => if i.id == invitation.id then
            { i with status := "accepted", respondedAt := some now }
          else i)
      let db2 := { db1 with invitations := invitations' }
      let sp := ConnectionManager.send_personal_message reg invitation.inviterId
      let bc := ConnectionManager.broadcast_to_session none sp.1
      ⟨.ok invitation.sessionId, db2, bc.1, sp.2 ++ bc.2⟩

/-- `decline_chat_invitation` endpoint (chat.py lines 498-545): no expiry
check; the inviter alone is notified. -/
def Router.decline_chat_invitation (db : Db) (reg : Registry) (now : Nat)
    (invitationId : Nat) (currentUser : UserRec) : RouterOut Unit :=
  match db.invitations.find?
      (fun i => i.id == invitationId && i.inviteeId == currentUser.id &&
        i.status == "pending") with
  | none => ⟨.error (404, "Invitation not found"), db, reg, []⟩
  | some invitation =>
    let invitations' := db.invitations.map
      (fun i => if i.id == invitation.id then
          { i with status := "declined", respondedAt := some now }
        else i)
    let db' := { db with invitations := invitations' }
    let sp := ConnectionManager.send_personal_message reg invitation.inviterId
    ⟨.ok (), db', sp.1, sp.2⟩

/-! ## Sample values for witnesses -/

/-- A sample session owned by user 1. -/
def sampleSession : ChatSessionRec :=
  { id := 1, title := "Weekend plans", userId := 1, partnerUserId := none,
    sessionType := "ai_mediation", status := "active", topic := none,
    lastActivity := 0 }

/-- A sample caller (user 1, partnered with user 2). -/
def sampleUser : UserRec := { id := 1, partnerId := some 2, name := "A" }

/-- A sample database holding just `sampleSession`. -/
def sampleDb : Db :=
  { sessions := [sampleSession], messages := [], invitations := [], nextId := 2 }

/-- A sample message body. -/
def sampleMessage : ChatMessageSend :=
  { content := "We keep arguing about chores", messageType := "text",
    parentMessageId := none }

/-- A flagged moderation result. -/
def flaggedMod : ModResult :=
  { flagged := true, categories := [("harassment", true)],
    categoryScores := [("harassment", 8/10)], provider := "openai" }

/-- A clean moderation result. -/
def cleanMod : ModResult :=
  { flagged := false, categories := [], categoryScores := [],
    provider := "openai" }

/-- A pending invitation from user 1 to user 2 for session 1, expiring at
time 100. -/
def sampleInvitation : ChatInvitationRec :=
  { id := 3, sessionId := 1, inviterId := 1, inviteeId := 2,
    status := "pending", invitationMessage := none, expiresAt := some 100,
    respondedAt := none }

/-- The invited partner (user 2). -/
def inviteeUser : UserRec := { id := 2, partnerId := some 1, name := "B" }

/-- A registry with one healthy connection each for users 1 and 2. -/
def sampleRegistry : Registry :=
  [(1, [{ connId := 1, sendOk := true }]), (2, [{ connId := 2, sendOk := true }])]

/-- `sampleDb` with `sampleInvitation` added. -/
def dbWithInvitation : Db :=
  { sessions := [sampleSession], messages := [],
    invitations := [sampleInvitation], nextId := 4 }

/-! ## Helper lemmas -/

theorem perm_insertSorted (le : α → α → Bool) (x : α) (l : List α) :
    (insertSorted le x l).Perm (x :: l) := by
  induction l with
  | nil => simp [insertSorted]
  | cons y ys ih =>
    by_cases h : le x y
    · simp [insertSorted, h]
    · simp only [insertSorted, h, if_neg]
      exact (ih.cons y).trans (List.Perm.swap x y ys)

theorem perm_sortBy (le : α → α → Bool) (l : List α) : (sortBy le l).Perm l := by
  induction l with
  | nil => simp [sortBy]
  | cons x xs ih =>
    exact (perm_insertSorted le x (sortBy le xs)).trans (ih.cons x)

theorem mem_sortBy {le : α → α → Bool} {l : List α} {a : α} :
    a ∈ sortBy le l ↔ a ∈ l := (perm_sortBy le l).mem_iff

theorem pairwise_insertSorted (le : α → α → Bool)
    (htot : ∀ a b, le a b = true ∨ le b a = true)
    (htrans : ∀ a b c, le a b = true → le b c = true → le a c = true)
    (x : α) (l : List α) (hl : l.Pairwise (fun a b => le a b = true)) :
    (insertSorted le x l).Pairwise (fun a b => le a b = true) := by
  induction l with
  | nil => simp [insertSorted]
  | cons y ys ih =>
    rcases List.pairwise_cons.mp hl with ⟨hy, hys⟩
    by_cases h : le x y
    · simp only [insertSorted, h, if_pos]
      refine List.pairwise_cons.mpr ⟨?_, hl⟩
      intro z hz
      rcases List.mem_cons.mp hz with hz | hz
      · subst hz; exact h
      · exact htrans x y z h (hy z hz)
    · simp only [insertSorted, h, if_neg]
      refine List.pairwise_cons.mpr ⟨?_, ih hys⟩
      intro z hz
      have hz'' := (perm_insertSorted le x ys).mem_iff.mp hz
      rcases List.mem_cons.mp hz'' with hz' | hz'
      · rcases htot x y with hxy | hyx
        · exact absurd hxy h
        · rw [hz']; exact hyx
      · exact hy z hz'

theorem pairwise_sortBy (le : α → α → Bool)
    (htot : ∀ a b, le a b = true ∨ le b a = true)
    (htrans : ∀ a b c, le a b = true → le b c = true → le a c = true)
    (l : List α) : (sortBy le l).Pairwise (fun a b => le a b = true) := by
  induction l with
  | nil => simp [sortBy]
  | cons x xs ih => exact pairwise_insertSorted le htot htrans x (sortBy le xs) ih

/-- Auxiliary counting fact: a member on which the predicate fails leaves
room for at most `length - 1` members satisfying it. -/
theorem countP_le_length_sub_one {l : List α} {x : α} (hx : x ∈ l)
    {p : α → Bool} (hpx : p x = false) : l.countP p + 1 ≤ l.length := by
  induction l with
  | nil => cases hx
  | cons y ys ih =>
    rcases List.mem_cons.mp hx with hx | hx
    · subst hx
      rw [List.countP_cons, hpx]
      simpa using List.countP_le_length p
    · rw [List.countP_cons]
      rcases h : p y with _ | _
      · simpa using Nat.le_succ_of_le (ih hx)
      · simpa [Nat.add_comm, Nat.add_left_comm] using Nat.succ_le_succ (ih hx)

/-- When every send succeeds, the Python loop attempts and delivers to
every connection and the list is unchanged. -/
theorem pyForSend_allOk : ∀ (l settled : List Conn),
    (∀ c ∈ l, c.sendOk = true) →
    pyForSend settled l = (settled ++ l, l)
  | [], settled, _ => by
    rw [List.append_nil]
    rfl
  | c :: rest, settled, hall => by
    have hc : c.sendOk = true := hall c (by simp)
    have ih := pyForSend_allOk rest (settled ++ [c])
      (fun d hd => hall d (by simp [hd]))
    unfold pyForSend
    rw [hc]
    simp only [if_true, ih]
    simp

/-- A successful `dict` lookup names an entry of the association list. -/
theorem mem_of_lookup_eq_some {u : Nat} {cs : List Conn} :
    ∀ {reg : Registry}, reg.lookup u = some cs → (u, cs) ∈ reg := by
  intro reg
  induction reg with
  | nil => intro h; simp [List.lookup] at h
  | cons e rest ih =>
    rcases e with ⟨k, v⟩
    intro h
    rw [List.lookup] at h
    by_cases hk : (u == k) = true
    · rw [hk] at h
      simp only [Option.some.injEq] at h
      rw [eq_of_beq hk, h]
      exact List.mem_cons_self _ _
    · rw [Bool.eq_false_iff.mpr hk] at h
      exact List.mem_cons_of_mem _ (ih h)

/-- Distinct keys determine values in an association list. -/
theorem nodup_keys_eq : ∀ {reg : Registry},
    (reg.map Prod.fst).Nodup →
    ∀ {u : Nat} {v w : List Conn}, (u, v) ∈ reg → (u, w) ∈ reg → v = w := by
  intro reg
  induction reg with
  | nil => intro _ u v w hv; cases hv
  | cons e rest ih =>
    intro hkeys u v w hv hw
    rw [List.map_cons] at hkeys
    have hk := List.nodup_cons.mp hkeys
    rcases List.mem_cons.mp hv with hv | hv <;>
      rcases List.mem_cons.mp hw with hw | hw
    · exact congrArg Prod.snd (hv.trans hw.symm)
    · exfalso
      have h1 : u = e.fst := congrArg Prod.fst hv
      have h2 : u ∈ rest.map Prod.fst := List.mem_map_of_mem Prod.fst hw
      rw [h1] at h2
      exact hk.1 h2
    · exfalso
      have h1 : u = e.fst := congrArg Prod.fst hw
      have h2 : u ∈ rest.map Prod.fst := List.mem_map_of_mem Prod.fst hv
      rw [h1] at h2
      exact hk.1 h2
    · exact ih hk.2 hv hw

/-- With healthy connections and dict-unique keys,
`send_personal_message` leaves the registry unchanged and delivers to the
looked-up user's whole connection list. -/
theorem send_personal_message_allOk (reg : Registry) (uid : Nat)
    (hall : ∀ e ∈ reg, ∀ c ∈ e.2, c.sendOk = true)
    (hkeys : (reg.map Prod.fst).Nodup) :
    ConnectionManager.send_personal_message reg uid =
      (reg, (reg.lookup uid).getD []) := by
  cases hlk : reg.lookup uid with
  | none =>
    unfold ConnectionManager.send_personal_message
    rw [hlk]
    rfl
  | some cs =>
    have hmem : (uid, cs) ∈ reg := mem_of_lookup_eq_some hlk
    have hcs : ∀ c ∈ cs, c.sendOk = true := fun c hc => hall (uid, cs) hmem c hc
    unfold ConnectionManager.send_personal_message
    rw [hlk]
    simp only [Option.getD_some]
    rw [pyForSend_allOk cs [] hcs]
    simp only [List.nil_append]
    have hmap : ∀ e ∈ reg, (if e.fst == uid then (e.fst, cs) else e) = id e := by
      intro e he
      by_cases hkk : (e.fst == uid) = true
      · have h1 : e.fst = uid := eq_of_beq hkk
        have hm2 : (uid, e.snd) ∈ reg := by
          rw [← h1]
          exact he
        have h2 : e.snd = cs := nodup_keys_eq hkeys hm2 hmem
        rw [if_pos hkk, ← h2]
        rfl
      · rw [if_neg hkk]
        rfl
    rw [List.map_congr_left hmap, List.map_id]

/-- An id-targeted status rewrite that leaves no row pending cannot raise
a triple's pending count. -/
theorem countP_pending_map_le (l : List ChatInvitationRec) (targetId : Nat)
    (g : ChatInvitationRec → ChatInvitationRec)
    (hg : ∀ i, ((g i).status == "pending") = false) (s a b : Nat) :
    (l.map (fun i => if i.id == targetId then g i else i)).countP
        (isPendingFor s a b) ≤ l.countP (isPendingFor s a b) := by
  rw [List.countP_map]
  apply List.countP_mono_left
  intro i _ h
  simp only [Function.comp_apply] at h
  by_cases hid : (i.id == targetId) = true
  · rw [if_pos hid] at h
    simp [isPendingFor, hg i] at h
  · rw [if_neg hid] at h
    exact h

/-- Appending one pending invitation for a triple whose pending count is
zero keeps every triple's count at most one. -/
theorem countP_pending_append_le (l : List ChatInvitationRec)
    (x : ChatInvitationRec)
    (hx : ∀ s a b, isPendingFor s a b x = true →
      l.countP (isPendingFor s a b) = 0)
    (hU : ∀ s a b, l.countP (isPendingFor s a b) ≤ 1) :
    ∀ s a b, (l ++ [x]).countP (isPendingFor s a b) ≤ 1 := by
  intro s a b
  rw [List.countP_append]
  by_cases h : isPendingFor s a b x = true
  · rw [hx s a b h]
    simp [List.countP_cons, h]
  · have h0 : List.countP (isPendingFor s a b) [x] = 0 := by
      simp [List.countP_cons, h]
    rw [h0]
    simpa using hU s a b

/-- A one-element list holds at most one match. -/
theorem countP_singleton_le_one (x : ChatInvitationRec)
    (p : ChatInvitationRec → Bool) : List.countP p [x] ≤ 1 := by
  by_cases h : p x = true <;> simp [List.countP_cons, h]

/-- With healthy connections, a broadcast with no sender exclusion leaves
the registry unchanged and delivers to every registered connection. -/
theorem broadcast_none_allOk : ∀ (reg : Registry),
    (∀ e ∈ reg, ∀ c ∈ e.2, c.sendOk = true) →
    ConnectionManager.broadcast_to_session none reg =
      (reg, (reg.map Prod.snd).flatten)
  | [], _ => rfl
  | e :: rest, hall => by
    have hcs : ∀ c ∈ e.snd, c.sendOk = true := hall e (by simp)
    have ih := broadcast_none_allOk rest (fun x hx => hall x (by simp [hx]))
    simp only [ConnectionManager.broadcast_to_session]
    rw [pyForSend_allOk e.snd [] hcs, ih]
    simp


/-- C6 (counterexample): on a failing backend call the OpenAI adapter's
`get_embeddings` returns `[]`, which is not a zero vector of the declared
dimensionality 1536 — the claim fails for the OpenAI backend. -/
theorem openai_embed_failure_not_zero_vector :
    OpenAIProvider.get_embeddings (.error "connection error") = [] ∧
    OpenAIProvider.get_embeddings (.error "connection error") ≠
      List.replicate openaiDeclaredDimension (0 : ℚ) := by
  refine ⟨rfl, fun h => ?_⟩
  have h1 := congrArg List.length h
  rw [List.length_replicate] at h1
  exact absurd h1 (by decide)

/-- C6 (amended): on an embedding-call failure the Gemini adapter returns a
zero vector of length 768, while the OpenAI adapter returns the empty
list. -/
theorem embed_failure_fallbacks (e : String) :
    GeminiProvider.get_embeddings (.error e) = List.replicate 768 (0 : ℚ) ∧
    OpenAIProvider.get_embeddings (.error e) = [] :=
  ⟨rfl, rfl⟩

/-! ## C7 — moderation errors are swallowed by the adapter -/

/-- C7 (counterexample): when the backend moderation call raises, the
OpenAI adapter catches the exception and returns a not-flagged result, and
`AIService.moderate_content` does the same around the provider — the error
is never propagated to the message pipeline. -/
theorem moderation_error_swallowed_not_flagged :
    OpenAIProvider.moderate_content (.error "boom") =
      { flagged := false, categories := [], categoryScores := [],
        provider := "openai" } ∧
    AIService.moderate_content "openai" (.error "boom") =
      { flagged := false, categories := [], categoryScores := [],
        provider := "openai" } :=
  ⟨rfl, rfl⟩

/-- C7 (amended): for every backend error, both the OpenAI adapter and the
service wrapper return a total, not-flagged moderation result (fail-open);
no error value reaches the message pipeline. -/
theorem moderation_error_fail_open (e providerName : String) :
    (OpenAIProvider.moderate_content (.error e)).flagged = false ∧
    (AIService.moderate_content providerName (.error e)).flagged = false :=
  ⟨rfl, rfl⟩

/-! ## C2 — generation failure is recoverable -/

/-- C2: when the generation backend raises, `send_message` still returns
(rather than raising): the AI reply carries the non-empty fallback apology,
zero tokens used, and an `error` marker in its metadata. -/
theorem generation_failure_returns_fallback
    (db : Db) (now sessionId userId : Nat) (providerName : String)
    (messageData : ChatMessageSend) (moderationResult : ModResult)
    (e : String) (suggestOutcome : Except String GenResult)
    (relevantContext : List SearchResult) (s : ChatSessionRec)
    (hs : db.sessions.find? (fun t => t.id == sessionId && t.userId == userId)
        = some s)
    (hflag : moderationResult.flagged = false) :
    ∃ r : SendOk,
      (ChatService.send_message db now sessionId userId providerName
          messageData moderationResult (.error e) suggestOutcome
          relevantContext).1 = .ok r ∧
      r.aiMessage.content = fallbackApology ∧
      fallbackApology ≠ "" ∧
      r.aiMessage.tokensUsed = some 0 ∧
      r.aiMessage.metadata.lookup "error" = some e := by
  unfold ChatService.send_message
  rw [hs, hflag]
  refine ⟨_, rfl, rfl, ?_, rfl, rfl⟩
  simp [fallbackApology]

/-- C2 witness at a concrete database. -/
theorem generation_failure_returns_fallback_witness :
    (sampleDb.sessions.find? (fun t => t.id == 1 && t.userId == 1)
        = some sampleSession) ∧
    cleanMod.flagged = false ∧
    ∃ r : SendOk,
      (ChatService.send_message sampleDb 5 1 1 "openai" sampleMessage cleanMod
          (.error "rate limit") (.error "rate limit") []).1 = .ok r ∧
      r.aiMessage.content = fallbackApology ∧
      fallbackApology ≠ "" ∧
      r.aiMessage.tokensUsed = some 0 ∧
      r.aiMessage.metadata.lookup "error" = some "rate limit" :=
  ⟨by decide, rfl,
    generation_failure_returns_fallback sampleDb 5 1 1 "openai" sampleMessage
      cleanMod "rate limit" (.error "rate limit") [] sampleSession (by decide)
      rfl⟩

/-! ## C1 — flagged message is rejected and never persisted -/

/-- C1: a send-message call whose content the moderation check flags is
rejected with the policy-violation detail (HTTP 400, "Message content
violates community guidelines"), which differs from the generic failure
response; the database is returned unchanged, so the user message is not
persisted and every subsequent history read returns the same messages as
before the call. -/
theorem flagged_message_rejected_not_persisted
    (db : Db) (reg : Registry) (now sessionId : Nat) (currentUser : UserRec)
    (providerName : String) (messageData : ChatMessageSend)
    (moderationResult : ModResult)
    (genOutcome suggestOutcome : Except String GenResult)
    (relevantContext : List SearchResult) (s : ChatSessionRec)
    (hs : db.sessions.find?
        (fun t => t.id == sessionId && t.userId == currentUser.id) = some s)
    (hflag : moderationResult.flagged = true) :
    (Router.send_message db reg now sessionId currentUser providerName
        messageData moderationResult genOutcome suggestOutcome
        relevantContext).result =
      .error (400, "Message content violates community guidelines") ∧
    ((400 : Nat), "Message content violates community guidelines") ≠
      genericSendFailure ∧
    (Router.send_message db reg now sessionId currentUser providerName
        messageData moderationResult genOutcome suggestOutcome
        relevantContext).db = db ∧
    ∀ limit offset,
      ChatService.get_chat_history
          (Router.send_message db reg now sessionId currentUser providerName
            messageData moderationResult genOutcome suggestOutcome
            relevantContext).db sessionId currentUser.id limit offset =
        ChatService.get_chat_history db sessionId currentUser.id limit
          offset := by
  have hres : ChatService.send_message db now sessionId currentUser.id
      providerName messageData moderationResult genOutcome suggestOutcome
      relevantContext = (.error .policyViolation, db) := by
    unfold ChatService.send_message
    rw [hs, hflag]
    rfl
  unfold Router.send_message
  rw [hres]
  exact ⟨rfl, by decide, rfl, fun _ _ => rfl⟩

/-- C1 witness at a concrete database. -/
theorem flagged_message_rejected_not_persisted_witness :
    (sampleDb.sessions.find? (fun t => t.id == 1 && t.userId == 1)
        = some sampleSession) ∧
    flaggedMod.flagged = true ∧
    ((Router.send_message sampleDb [] 5 1 sampleUser "openai" sampleMessage
        flaggedMod (.error "x") (.error "x") []).result =
      .error (400, "Message content violates community guidelines") ∧
    ((400 : Nat), "Message content violates community guidelines") ≠
      genericSendFailure ∧
    (Router.send_message sampleDb [] 5 1 sampleUser "openai" sampleMessage
        flaggedMod (.error "x") (.error "x") []).db = sampleDb ∧
    ∀ limit offset,
      ChatService.get_chat_history
          (Router.send_message sampleDb [] 5 1 sampleUser "openai"
            sampleMessage flaggedMod (.error "x") (.error "x") []).db 1 1
          limit offset =
        ChatService.get_chat_history sampleDb 1 1 limit offset) :=
  ⟨by decide, rfl,
    flagged_message_rejected_not_persisted sampleDb [] 5 1 sampleUser "openai"
      sampleMessage flaggedMod (.error "x") (.error "x") [] sampleSession
      (by decide) rfl⟩

/-! ## C3 — accepting after expiry -/

/-- C3: an accept attempt on a pending invitation whose expiry timestamp
has passed first sets the invitation's status to expired and rejects the
accept with a 400 — the status never becomes accepted — and the sessions
table (partner id and session kind included) is unchanged. -/
theorem accept_after_expiry_rejected
    (db : Db) (reg : Registry) (now invitationId : Nat)
    (currentUser : UserRec) (inv : ChatInvitationRec) (t : Nat)
    (hfind : db.invitations.find?
        (fun i => i.id == invitationId && i.inviteeId == currentUser.id &&
          i.status == "pending") = some inv)
    (ht : inv.expiresAt = some t) (hlt : t < now) :
    (Router.accept_chat_invitation db reg now invitationId
        currentUser).result = .error (400, "Invitation has expired") ∧
    (∀ i ∈ (Router.accept_chat_invitation db reg now invitationId
        currentUser).db.invitations,
      i.id = inv.id → i.status = "expired") ∧
    (Router.accept_chat_invitation db reg now invitationId
        currentUser).db.sessions = db.sessions := by
  have hexp : invitationExpired now inv = true := by
    unfold invitationExpired
    rw [ht]
    simpa using hlt
  have hout : Router.accept_chat_invitation db reg now invitationId
      currentUser =
      { result := .error (400, "Invitation has expired"),
        db := { db with invitations :=
            db.invitations.map (fun i =>
              if i.id == inv.id then { i with status := "expired" } else i) },
        registry := reg, delivered := [] } := by
    unfold Router.accept_chat_invitation
    simp only [hfind]
    rw [hexp]
    rfl
  rw [hout]
  refine ⟨rfl, ?_, rfl⟩
  intro i hi hid
  rcases List.mem_map.mp hi with ⟨j, hj, rfl⟩
  by_cases h : (j.id == inv.id) = true
  · simp [h]
  · simp only [h, if_false, Bool.false_eq_true] at hid ⊢
    rw [hid] at h
    simp at h

/-- C3 witness: user 2 accepts `sampleInvitation` at time 200, after its
expiry at time 100. -/
theorem accept_after_expiry_rejected_witness :
    (dbWithInvitation.invitations.find?
        (fun i => i.id == 3 && i.inviteeId == 2 && i.status == "pending")
      = some sampleInvitation) ∧
    sampleInvitation.expiresAt = some 100 ∧ 100 < 200 ∧
    ((Router.accept_chat_invitation dbWithInvitation [] 200 3
        inviteeUser).result = .error (400, "Invitation has expired") ∧
    (∀ i ∈ (Router.accept_chat_invitation dbWithInvitation [] 200 3
        inviteeUser).db.invitations,
      i.id = sampleInvitation.id → i.status = "expired") ∧
    (Router.accept_chat_invitation dbWithInvitation [] 200 3
        inviteeUser).db.sessions = dbWithInvitation.sessions) :=
  ⟨by decide, rfl, by decide,
    accept_after_expiry_rejected dbWithInvitation [] 200 3 inviteeUser
      sampleInvitation 100 (by decide) rfl (by decide)⟩

/-! ## C8 — a failed delivery skips the next sibling connection -/

/-- C8 (code evaluation at the failing input): user 1 holds two live
connections and the send to the first one fails.  `send_personal_message`
removes only the broken connection and raises nothing, but the healthy
sibling — which slides into the removed connection's position while the
loop's index advances — stays registered and is never attempted: the
delivered list is empty. -/
theorem send_personal_message_skips_sibling :
    ConnectionManager.send_personal_message
        [(1, [{ connId := 10, sendOk := false },
              { connId := 11, sendOk := true }])] 1 =
      ([(1, [{ connId := 11, sendOk := true }])], []) := rfl

/-! ## C5 — accepting a pending, unexpired invitation -/

/-- C5: accepting a pending, unexpired invitation sets the session's
partner id to the invitee and flips the session kind to the joint kind
(`couple_chat`), marks the invitation accepted with its responded-at
timestamp, and — when every connection is healthy and registry keys are
dict-unique — the event reaches every live connection of the inviter and
of the invitee. -/
theorem accept_pending_invitation_success
    (db : Db) (reg : Registry) (now invitationId : Nat)
    (currentUser : UserRec) (inv : ChatInvitationRec)
    (hfind : db.invitations.find?
        (fun i => i.id == invitationId && i.inviteeId == currentUser.id &&
          i.status == "pending") = some inv)
    (hexp : invitationExpired now inv = false)
    (hsess : ∃ s ∈ db.sessions, s.id = inv.sessionId)
    (hall : ∀ e ∈ reg, ∀ c ∈ e.2, c.sendOk = true)
    (hkeys : (reg.map Prod.fst).Nodup) :
    (Router.accept_chat_invitation db reg now invitationId
        currentUser).result = .ok inv.sessionId ∧
    (∀ s ∈ (Router.accept_chat_invitation db reg now invitationId
        currentUser).db.sessions,
      s.id = inv.sessionId →
        s.partnerUserId = some currentUser.id ∧
        s.sessionType = "couple_chat") ∧
    (∃ s ∈ (Router.accept_chat_invitation db reg now invitationId
        currentUser).db.sessions,
      s.id = inv.sessionId ∧ s.partnerUserId = some currentUser.id ∧
        s.sessionType = "couple_chat") ∧
    (∀ i ∈ (Router.accept_chat_invitation db reg now invitationId
        currentUser).db.invitations,
      i.id = invitationId →
        i.status = "accepted" ∧ i.respondedAt = some now) ∧
    (∀ u cs, reg.lookup u = some cs →
      (u = inv.inviterId ∨ u = currentUser.id) →
      ∀ c ∈ cs, c ∈ (Router.accept_chat_invitation db reg now invitationId
        currentUser).delivered) := by
  have hinvid : inv.id = invitationId := by
    have h := List.find?_some hfind
    simp only [Bool.and_eq_true, beq_iff_eq] at h
    exact h.1.1
  have hout : Router.accept_chat_invitation db reg now invitationId
      currentUser =
      { result := .ok inv.sessionId,
        db := { db with
            sessions := db.sessions.map (fun s =>
              if s.id == inv.sessionId then
                { s with partnerUserId := some currentUser.id,
                         sessionType := "couple_chat" }
              else s),
            invitations := db.invitations.map (fun i =>
              if i.id == inv.id then
                { i with status := "accepted", respondedAt := some now }
              else i) },
        registry := reg,
        delivered := ((reg.lookup inv.inviterId).getD []) ++
          (reg.map Prod.snd).flatten } := by
    unfold Router.accept_chat_invitation
    simp only [hfind]
    rw [if_neg (by simp [hexp])]
    simp only [send_personal_message_allOk reg inv.inviterId hall hkeys,
      broadcast_none_allOk reg hall]
  rw [hout]
  refine ⟨rfl, ?_, ?_, ?_, ?_⟩
  · intro s hs hid
    rcases List.mem_map.mp hs with ⟨s0, hs0, rfl⟩
    by_cases h : (s0.id == inv.sessionId) = true
    · rw [if_pos h]
      exact ⟨rfl, rfl⟩
    · exfalso
      rw [if_neg h] at hid
      exact h (beq_iff_eq.mpr hid)
  · rcases hsess with ⟨s0, hs0, hid⟩
    have h : (s0.id == inv.sessionId) = true := beq_iff_eq.mpr hid
    refine ⟨_, List.mem_map_of_mem _ hs0, ?_⟩
    simp [h, hid]
  · intro i hi hid
    rcases List.mem_map.mp hi with ⟨j, hj, rfl⟩
    by_cases h : (j.id == inv.id) = true
    · rw [if_pos h]
      exact ⟨rfl, rfl⟩
    · exfalso
      rw [if_neg h] at hid
      exact h (beq_iff_eq.mpr (hid.trans hinvid.symm))
  · intro u cs hlk _ c hc
    apply List.mem_append.mpr
    right
    exact List.mem_flatten.mpr
      ⟨cs, List.mem_map_of_mem Prod.snd (mem_of_lookup_eq_some hlk), hc⟩

/-- C5 witness: user 2 accepts `sampleInvitation` at time 50, inside the
24-hour window, with both users connected. -/
theorem accept_pending_invitation_success_witness :
    (dbWithInvitation.invitations.find?
        (fun i => i.id == 3 && i.inviteeId == 2 && i.status == "pending")
      = some sampleInvitation) ∧
    invitationExpired 50 sampleInvitation = false ∧
    (∃ s ∈ dbWithInvitation.sessions, s.id = sampleInvitation.sessionId) ∧
    (∀ e ∈ sampleRegistry, ∀ c ∈ e.2, c.sendOk = true) ∧
    ((sampleRegistry.map Prod.fst).Nodup) ∧
    ((Router.accept_chat_invitation dbWithInvitation sampleRegistry 50 3
        inviteeUser).result = .ok sampleInvitation.sessionId ∧
    (∀ s ∈ (Router.accept_chat_invitation dbWithInvitation sampleRegistry 50 3
        inviteeUser).db.sessions,
      s.id = sampleInvitation.sessionId →
        s.partnerUserId = some inviteeUser.id ∧
        s.sessionType = "couple_chat") ∧
    (∃ s ∈ (Router.accept_chat_invitation dbWithInvitation sampleRegistry 50 3
        inviteeUser).db.sessions,
      s.id = sampleInvitation.sessionId ∧
        s.partnerUserId = some inviteeUser.id ∧
        s.sessionType = "couple_chat") ∧
    (∀ i ∈ (Router.accept_chat_invitation dbWithInvitation sampleRegistry 50 3
        inviteeUser).db.invitations,
      i.id = 3 → i.status = "accepted" ∧ i.respondedAt = some 50) ∧
    (∀ u cs, sampleRegistry.lookup u = some cs →
      (u = sampleInvitation.inviterId ∨ u = inviteeUser.id) →
      ∀ c ∈ cs, c ∈ (Router.accept_chat_invitation dbWithInvitation
        sampleRegistry 50 3 inviteeUser).delivered)) :=
  ⟨by decide, rfl, by decide, by decide, by decide,
    accept_pending_invitation_success dbWithInvitation sampleRegistry 50 3
      inviteeUser sampleInvitation (by decide) rfl (by decide) (by decide)
      (by decide)⟩

/-! ## C4 — at most one pending invitation per triple -/

/-- C4: when at most one pending invitation exists per (session, inviter,
invitee) triple, every invitation operation preserves that bound, and a
create request for a triple that already has a pending invitation is
rejected with the database unchanged (no new invitation). -/
theorem pending_invitation_uniqueness (db : Db) (hU : PendingUnique db) :
    (∀ reg now sessionId currentUser msg,
      PendingUnique (Router.invite_partner_to_session db reg now sessionId
        currentUser msg).db) ∧
    (∀ reg now invitationId currentUser,
      PendingUnique (Router.accept_chat_invitation db reg now invitationId
        currentUser).db) ∧
    (∀ reg now invitationId currentUser,
      PendingUnique (Router.decline_chat_invitation db reg now invitationId
        currentUser).db) ∧
    (∀ reg now sessionId currentUser partnerId msg,
      currentUser.partnerId = some partnerId →
      1 ≤ db.invitations.countP
            (isPendingFor sessionId currentUser.id partnerId) →
      (∃ err, (Router.invite_partner_to_session db reg now sessionId
          currentUser msg).result = .error err) ∧
      (Router.invite_partner_to_session db reg now sessionId currentUser
          msg).db = db) := by
  refine ⟨?_, ?_, ?_, ?_⟩
  · intro reg now sessionId currentUser msg
    unfold Router.invite_partner_to_session
    split
    · exact hU
    · split
      · exact hU
      · split
        · exact hU
        · split
          · exact hU
          · rename_i partnerId _ _ _ hfi
            refine countP_pending_append_le db.invitations _ ?_ hU
            intro s a b hx
            unfold isPendingFor at hx
            simp only [Bool.and_eq_true, beq_iff_eq] at hx
            obtain ⟨⟨⟨h1, h2⟩, h3⟩, _⟩ := hx
            rw [← h1, ← h2, ← h3]
            exact List.countP_eq_zero.mpr (fun i hi => by
              simpa using List.find?_eq_none.mp hfi i hi)
  · intro reg now invitationId currentUser
    unfold Router.accept_chat_invitation
    split
    · exact hU
    · split
      · intro s a b
        refine (countP_pending_map_le db.invitations _ _ ?_ s a b).trans
          (hU s a b)
        intro i
        rfl
      · intro s a b
        refine (countP_pending_map_le db.invitations _ _ ?_ s a b).trans
          (hU s a b)
        intro i
        rfl
  · intro reg now invitationId currentUser
    unfold Router.decline_chat_invitation
    split
    · exact hU
    · intro s a b
      refine (countP_pending_map_le db.invitations _ _ ?_ s a b).trans
        (hU s a b)
      intro i
      rfl
  · intro reg now sessionId currentUser partnerId msg hpid hcount
    unfold Router.invite_partner_to_session
    simp only [hpid]
    split
    · exact ⟨⟨_, rfl⟩, rfl⟩
    · split
      · exact ⟨⟨_, rfl⟩, rfl⟩
      · split
        · exact ⟨⟨_, rfl⟩, rfl⟩
        · rename_i hfi
          exfalso
          have h0 : db.invitations.countP
              (isPendingFor sessionId currentUser.id partnerId) = 0 :=
            List.countP_eq_zero.mpr (fun i hi => by
              simpa using List.find?_eq_none.mp hfi i hi)
          omega

/-- C4 witness at a concrete database holding one pending invitation. -/
theorem pending_invitation_uniqueness_witness :
    PendingUnique dbWithInvitation ∧
    ((∀ reg now sessionId currentUser msg,
      PendingUnique (Router.invite_partner_to_session dbWithInvitation reg
        now sessionId currentUser msg).db) ∧
    (∀ reg now invitationId currentUser,
      PendingUnique (Router.accept_chat_invitation dbWithInvitation reg now
        invitationId currentUser).db) ∧
    (∀ reg now invitationId currentUser,
      PendingUnique (Router.decline_chat_invitation dbWithInvitation reg now
        invitationId currentUser).db) ∧
    (∀ reg now sessionId currentUser partnerId msg,
      currentUser.partnerId = some partnerId →
      1 ≤ dbWithInvitation.invitations.countP
            (isPendingFor sessionId currentUser.id partnerId) →
      (∃ err, (Router.invite_partner_to_session dbWithInvitation reg now
          sessionId currentUser msg).result = .error err) ∧
      (Router.invite_partner_to_session dbWithInvitation reg now sessionId
          currentUser msg).db = dbWithInvitation)) := by
  have hU0 : PendingUnique dbWithInvitation := fun s a b =>
    countP_singleton_le_one sampleInvitation (isPendingFor s a b)
  exact ⟨hU0, pending_invitation_uniqueness dbWithInvitation hU0⟩

/-! ## C9 — scoped, thresholded, bounded context search -/

/-- C9: `search_relevant_context` returns at most `limit` results; every
result stems from a stored chunk of the queried session and keeps only
matches scoring at least `minScore` (whose default is 0.70), carrying the
chunk's content and kind with the similarity score scaled to 0-100 via
`round(score * 100)`; and when the similarity index is unavailable, or the
query embedding is the adapter's empty failure sentinel, the search
returns the empty list instead of raising. -/
theorem search_relevant_context_spec (indexAvailable : Bool)
    (sim : List ℚ → List ℚ → ℚ) (index : List StoredChunk)
    (queryEmbedding : List ℚ) (sessionId limit : Nat) (minScore : ℚ) :
    (VectorService.search_relevant_context indexAvailable sim index
        queryEmbedding sessionId limit minScore).length ≤ limit ∧
    (∀ r ∈ VectorService.search_relevant_context indexAvailable sim index
        queryEmbedding sessionId limit minScore,
      ∃ c ∈ index, c.sessionId = sessionId ∧ r.content = c.content ∧
        r.contentType = c.contentType ∧
        minScore ≤ sim queryEmbedding c.values ∧
        r.relevanceScore = pyRound (sim queryEmbedding c.values * 100)) ∧
    (indexAvailable = false →
      VectorService.search_relevant_context indexAvailable sim index
        queryEmbedding sessionId limit minScore = []) ∧
    (queryEmbedding = [] →
      VectorService.search_relevant_context indexAvailable sim index
        queryEmbedding sessionId limit minScore = []) ∧
    defaultMinScore = 7/10 := by
  refine ⟨?_, ?_, ?_, ?_, rfl⟩
  · unfold VectorService.search_relevant_context
    split
    · simp
    · split
      · simp
      · rw [List.length_map]
        calc ((pineconeQuery sim index queryEmbedding limit
                sessionId).filter
              (fun m => decide (minScore ≤ m.score))).length
            ≤ (pineconeQuery sim index queryEmbedding limit
                sessionId).length := List.length_filter_le _ _
          _ ≤ limit := by
              unfold pineconeQuery
              exact List.length_take_le _ _
  · intro r hr
    unfold VectorService.search_relevant_context at hr
    by_cases hA : indexAvailable = false
    · rw [if_pos hA] at hr
      exact absurd hr (List.not_mem_nil r)
    · rw [if_neg hA] at hr
      by_cases hq : queryEmbedding = []
      · rw [if_pos hq] at hr
        exact absurd hr (List.not_mem_nil r)
      · rw [if_neg hq] at hr
        rcases List.mem_map.mp hr with ⟨m, hm, rfl⟩
        rcases List.mem_filter.mp hm with ⟨hm1, hm2⟩
        unfold pineconeQuery at hm1
        have hm3 := mem_sortBy.mp (List.mem_of_mem_take hm1)
        rcases List.mem_map.mp hm3 with ⟨c, hc, rfl⟩
        rcases List.mem_filter.mp hc with ⟨hc1, hc2⟩
        exact ⟨c, hc1, eq_of_beq hc2, rfl, rfl, of_decide_eq_true hm2, rfl⟩
  · intro hA
    unfold VectorService.search_relevant_context
    rw [if_pos hA]
  · intro hq
    unfold VectorService.search_relevant_context
    rw [hq]
    simp

/-! ## C10 — session lookup limited to the 20 most recent -/

/-- C10: the get session+messages endpoint looks the session up inside a
session list fetched with `get_chat_sessions`'s default limit of 20, so a
session with at least 20 strictly more recently active sessions — hence
outside the caller's 20 most-recently-active sessions — yields a 404 even
though the caller owns it. -/
theorem get_chat_session_not_found_beyond_limit
    (db : Db) (uid : Nat) (s : ChatSessionRec)
    (hmem : s ∈ db.sessions) (hown : s.userId = uid)
    (hids : ∀ t ∈ db.sessions, t.id = s.id → t = s)
    (hcount : 20 ≤ (db.sessions.filter (fun t => t.userId == uid &&
        decide (s.lastActivity < t.lastActivity))).length) :
    Router.get_chat_session db uid s.id =
      .error (404, "Chat session not found") := by
  have hpair := pairwise_sortBy sessActivityDesc
      (fun a b => by
        unfold sessActivityDesc
        rcases Nat.le_total b.lastActivity a.lastActivity with h | h <;>
          simp [h])
      (fun a b c hab hbc => by
        unfold sessActivityDesc at hab hbc ⊢
        simp only [decide_eq_true_eq] at hab hbc ⊢
        omega)
      (db.sessions.filter (fun t => t.userId == uid))
  have hfindnone : (ChatService.get_chat_sessions db uid 20 0).find?
      (fun t => t.id == s.id) = none := by
    rw [List.find?_eq_none]
    intro t ht hbid
    unfold ChatService.get_chat_sessions at ht
    rw [List.drop_zero] at ht
    have hts : t = s := hids t
      (List.mem_filter.mp (mem_sortBy.mp (List.mem_of_mem_take ht))).1
      (eq_of_beq hbid)
    rw [hts] at ht
    set L := sortBy sessActivityDesc
      (db.sessions.filter (fun t => t.userId == uid)) with hL
    set P := fun t : ChatSessionRec =>
      decide (s.lastActivity < t.lastActivity) with hPdef
    have hcount' : 20 ≤ L.countP P := by
      have h1 : (db.sessions.filter (fun t => t.userId == uid &&
          decide (s.lastActivity < t.lastActivity))).length
          = db.sessions.countP (fun t => t.userId == uid && P t) :=
        (List.countP_eq_length_filter _ _).symm
      have h2 : db.sessions.countP (fun t => t.userId == uid && P t)
          = (db.sessions.filter (fun t => t.userId == uid)).countP P := by
        rw [List.countP_filter]
        exact List.countP_congr (fun x _ => by
          rcases h3 : P x <;> rcases h4 : (x.userId == uid) <;> simp [h3, h4])
      have h3 := ((perm_sortBy sessActivityDesc
        (db.sessions.filter (fun t => t.userId == uid))).countP_eq P).symm
      rw [h1, h2] at hcount
      rw [← hL] at h3
      omega
    have hsplit : L.countP P = (L.take 20).countP P + (L.drop 20).countP P := by
      conv_lhs => rw [← List.take_append_drop 20 L]
      rw [List.countP_append]
    have hdrop : (L.drop 20).countP P = 0 := by
      apply List.countP_eq_zero.mpr
      intro y hy
      have hge := (List.pairwise_append.mp
        ((List.take_append_drop 20 L).symm ▸ hpair)).2.2 s ht y hy
      unfold sessActivityDesc at hge
      simp only [decide_eq_true_eq] at hge
      simp only [hPdef, decide_eq_true_eq]
      omega
    have htake : (L.take 20).countP P ≤ 19 := by
      have hPs : P s = false := by simp [hPdef]
      have h5 := countP_le_length_sub_one ht hPs
      have h6 : (L.take 20).length ≤ 20 := L.length_take_le 20
      omega
    omega
  unfold Router.get_chat_session
  simp only [hfindnone]

/-- A caller-owned session whose last activity is older than 20 sibling
sessions, for the C10 witness. -/
def oldSession : ChatSessionRec :=
  { id := 100, title := "old", userId := 1, partnerUserId := none,
    sessionType := "ai_mediation", status := "active", topic := none,
    lastActivity := 0 }

/-- A database where user 1 owns `oldSession` plus 20 more recent
sessions. -/
def dbManySessions : Db :=
  { sessions := oldSession :: (List.range 20).map (fun n =>
      { id := n + 1, title := "t", userId := 1, partnerUserId := none,
        sessionType := "ai_mediation", status := "active", topic := none,
        lastActivity := n + 1 }),
    messages := [], invitations := [], nextId := 200 }

/-- C10 witness: with 20 more recent sessions, the owned session 100 is
reported as not found. -/
theorem get_chat_session_not_found_beyond_limit_witness :
    oldSession ∈ dbManySessions.sessions ∧
    oldSession.userId = 1 ∧
    (∀ t ∈ dbManySessions.sessions, t.id = oldSession.id → t = oldSession) ∧
    20 ≤ (dbManySessions.sessions.filter (fun t => t.userId == 1 &&
        decide (oldSession.lastActivity < t.lastActivity))).length ∧
    Router.get_chat_session dbManySessions 1 oldSession.id =
      .error (404, "Chat session not found") :=
  ⟨by decide, rfl, by decide, by decide,
    get_chat_session_not_found_beyond_limit dbManySessions 1 oldSession
      (by decide) rfl (by decide) (by decide)⟩

end CoupleCompass
